import Mathlib

/-!
Shallow embedding of `src/vinheria-estoque-simples-com-token/server.js`.

The server keeps two SQLite tables, `users (id, email UNIQUE, password_hash)`
and `products (id, name, quantity)`, and exposes handlers for registration,
login (password plus a shared access token from `process.env.ACCESS_TOKEN`),
and inventory mutations (add, incr, decr, delete).  We model the database as
explicit lists with auto-increment counters, absent form fields and absent
environment variables as `Option String`, and the bcrypt primitives
(`bcrypt.hash`, `bcrypt.compare`) as function parameters, since their output
is opaque to the control flow being verified.  SQLite `INTEGER` quantities
are modelled as `Int` (the column is signed and the code never clamps on
insert).  Each handler returns the HTTP-visible outcome (which response was
sent, whether a session was set) together with the updated database.
-/

namespace Vinheria

/-- A row of the `users` table: `id INTEGER PRIMARY KEY AUTOINCREMENT`,
`email TEXT UNIQUE NOT NULL`, `password_hash TEXT NOT NULL`. -/
structure User where
  id : Nat
  email : String
  password_hash : String
deriving Repr, DecidableEq

/-- A row of the `products` table: `id INTEGER PRIMARY KEY AUTOINCREMENT`,
`name TEXT NOT NULL`, `quantity INTEGER NOT NULL DEFAULT 0`. -/
structure Product where
  id : Nat
  name : String
  quantity : Int
deriving Repr, DecidableEq

/-- The persistent state `data.db`: both tables plus their auto-increment
counters (SQLite assigns 1, 2, 3, … to fresh rows). -/
structure Db where
  users : List User
  nextUserId : Nat
  products : List Product
  nextProductId : Nat
deriving Repr, DecidableEq

/-- A freshly created `data.db`: both tables empty, counters at 1. -/
def Db.empty : Db := ⟨[], 1, [], 1⟩

/-- A whitespace character in the sense of JS `String.prototype.trim`
(space and the ASCII control whitespace range; the exotic Unicode space
code points are outside the modelled character fragment). -/
def isJsSpace (c : Char) : Bool := c.toNat = 32 || (9 ≤ c.toNat && c.toNat ≤ 13)

/-- JS `s.trim()`: drop whitespace from both ends.  Written over the
character list so that it evaluates inside the kernel. -/
def jsTrim (s : String) : String :=
  String.mk (((s.data.dropWhile isJsSpace).reverse.dropWhile isJsSpace).reverse)

/-- JS `toLowerCase` on one character (ASCII fragment). -/
def lowerChar (c : Char) : Char :=
  if 65 ≤ c.toNat && c.toNat ≤ 90 then Char.ofNat (c.toNat + 32) else c

/-- JS `s.toLowerCase()` (ASCII fragment). -/
def jsToLower (s : String) : String := String.mk (s.data.map lowerChar)

/-- Decimal digit value of a character, if it is one. -/
def digit? (c : Char) : Option Nat :=
  if 48 ≤ c.toNat && c.toNat ≤ 57 then some (c.toNat - 48) else none

/-- Left-to-right accumulation of a digit string's value; `none` as soon
as a non-digit appears. -/
def parseNatAux : List Char → Nat → Option Nat
  | [], acc => some acc
  | c :: rest, acc =>
    match digit? c with
    | none => none
    | some d => parseNatAux rest (acc * 10 + d)

/-- JS `Number(s)` on the integer fragment: optional surrounding
whitespace, an empty or all-whitespace string is 0, an optional sign
followed by decimal digits is that integer, and anything else is `NaN`
(`none`).  Fractional, hexadecimal and exponent forms are outside the
modelled fragment. -/
def jsNumber (s : String) : Option Int :=
  match (jsTrim s).data with
  | [] => some 0
  | '-' :: rest =>
    if rest = [] then none else (parseNatAux rest 0).map (fun n => -(n : Int))
  | '+' :: rest =>
    if rest = [] then none else (parseNatAux rest 0).map (fun n => (n : Int))
  | l => (parseNatAux l 0).map (fun n => (n : Int))

/-- JS `email.trim().toLowerCase()` as used by both `/register` (line 109)
and `/login` (line 143). -/
def normalizeEmail (e : String) : String := jsToLower (jsTrim e)

/-- `SELECT * FROM users WHERE email = ?` — first row with that exact email. -/
def findByEmail (users : List User) (e : String) : Option User :=
  users.find? (fun u => u.email == e)

/-- Outcome of `POST /register` (server.js lines 105-116): redirect to
`/login` on success, the `SQLITE_CONSTRAINT_UNIQUE` message
`Email já cadastrado.` on a duplicate email, generic `Erro.` otherwise. -/
inductive RegisterResult
  | redirectLogin
  | duplicateEmail
  | genericError
deriving Repr, DecidableEq

/-- `POST /register` handler (server.js lines 105-116).  `hashFn` stands for
`bcrypt.hash(·, 10)`.  If either field is absent, `bcrypt.hash(undefined)`
or `email.trim()` throws inside the `try`, which the `catch` turns into the
generic error.  Otherwise the normalized email is inserted; the UNIQUE
constraint on `email` rejects an existing normalized email. -/
def postRegister (hashFn : String → String) (db : Db)
    (email password : Option String) : RegisterResult × Db :=
  match email, password with
  | some e, some p =>
    let norm := normalizeEmail e
    if (findByEmail db.users norm).isSome then
      (RegisterResult.duplicateEmail, db)
    else
      (RegisterResult.redirectLogin,
        { db with
          users := db.users ++ [⟨db.nextUserId, norm, hashFn p⟩],
          nextUserId := db.nextUserId + 1 })
  | _, _ => (RegisterResult.genericError, db)

/-- Outcome of `POST /login` (server.js lines 133-152): the
`Token de acesso inválido.` page, the `Credenciais inválidas` page, or a
redirect to `/inventory` with a session established. -/
inductive LoginResult
  | invalidAccessToken
  | invalidCredentials
  | redirectInventory
deriving Repr, DecidableEq

/-- Everything observable about one `POST /login` request: which response
was sent, whether the users table was queried at all, and the
`req.session.user` value set (if any). -/
structure LoginOutcome where
  result : LoginResult
  lookupPerformed : Bool
  sessionUser : Option (Nat × String)
deriving Repr, DecidableEq

/-- The guard `!expectedToken || accessToken !== expectedToken`
(server.js line 137): `process.env.ACCESS_TOKEN` is falsy when unset or
set to the empty string; otherwise strict string comparison against the
presented field (an absent field, `undefined`, never equals a string). -/
def tokenRejected (expectedToken accessToken : Option String) : Bool :=
  match expectedToken with
  | none => true
  | some t => t == "" || !(accessToken == some t)

/-- `POST /login` handler (server.js lines 133-152).  `hashCheck` stands for
`bcrypt.compare`.  The token guard runs first and returns before any
database access; then `(email || "").trim().toLowerCase()` is looked up;
an unknown email and a failed `bcrypt.compare(password || "", hash)` both
send the identical `Credenciais inválidas` response. -/
def postLogin (hashCheck : String → String → Bool)
    (expectedToken : Option String) (users : List User)
    (email password accessToken : Option String) : LoginOutcome :=
  if tokenRejected expectedToken accessToken then
    ⟨LoginResult.invalidAccessToken, false, none⟩
  else
    match findByEmail users (normalizeEmail (email.getD "")) with
    | none => ⟨LoginResult.invalidCredentials, true, none⟩
    | some u =>
      if hashCheck (password.getD "") u.password_hash then
        ⟨LoginResult.redirectInventory, true, some (u.id, u.email)⟩
      else
        ⟨LoginResult.invalidCredentials, true, none⟩

/-- Outcome of `POST /inventory/add` (server.js lines 190-193): on any
input that binds, the handler redirects to `/inventory`; an absent `name`
field (`undefined.trim()`) or a `NaN` quantity (NULL into a NOT NULL
column) throws, which Express surfaces as an error response. -/
inductive AddResult
  | redirectInventory
  | error
deriving Repr, DecidableEq

/-- The value `Number(req.body.quantity || 0)` (server.js line 191): an
absent or empty field is falsy and yields 0; otherwise JS `Number` parses
the string, and a non-numeric string yields `NaN` (modelled as `none`,
which makes the INSERT fail).  Note there is no clamping of negatives. -/
def jsQuantity (q : Option String) : Option Int :=
  match q with
  | none => some 0
  | some s => if s == "" then some 0 else jsNumber s

/-- `POST /inventory/add` handler (server.js lines 190-193): inserts
`(req.body.name.trim(), Number(req.body.quantity || 0))` with no
validation of either value. -/
def postInventoryAdd (db : Db) (name quantity : Option String) :
    AddResult × Db :=
  match name with
  | none => (AddResult.error, db)
  | some n =>
    match jsQuantity quantity with
    | none => (AddResult.error, db)
    | some v =>
      (AddResult.redirectInventory,
        { db with
          products := db.products ++ [⟨db.nextProductId, jsTrim n, v⟩],
          nextProductId := db.nextProductId + 1 })

/-- Outcome of the three `POST /inventory/:id/…` row handlers: each always
redirects to `/inventory` (an UPDATE/DELETE that matches zero rows is not
an error in SQLite). -/
inductive InvResult
  | redirectInventory
deriving Repr, DecidableEq

/-- `POST /inventory/:id/incr` (server.js lines 195-198):
`UPDATE products SET quantity = quantity + 1 WHERE id = ?`. -/
def postInventoryIncr (db : Db) (i : Nat) : InvResult × Db :=
  (InvResult.redirectInventory,
    { db with
      products := db.products.map (fun p =>
        if p.id == i then { p with quantity := p.quantity + 1 } else p) })

/-- `POST /inventory/:id/decr` (server.js lines 200-203):
`UPDATE products SET quantity = MAX(quantity - 1, 0) WHERE id = ?`. -/
def postInventoryDecr (db : Db) (i : Nat) : InvResult × Db :=
  (InvResult.redirectInventory,
    { db with
      products := db.products.map (fun p =>
        if p.id == i then { p with quantity := max (p.quantity - 1) 0 } else p) })

/-- `POST /inventory/:id/delete` (server.js lines 205-208):
`DELETE FROM products WHERE id = ?`. -/
def postInventoryDelete (db : Db) (i : Nat) : InvResult × Db :=
  (InvResult.redirectInventory,
    { db with products := db.products.filter (fun p => !(p.id == i)) })

/-- Startup seeding (server.js lines 27-33): if `COUNT(*)` over `products`
is zero, insert `("Tinto Reserva", 12)`, `("Branco Seco", 8)`,
`("Rosé Suave", 5)` in that order; otherwise do nothing. -/
def seedIfEmpty (db : Db) : Db :=
  if db.products.isEmpty then
    { db with
      products :=
        [⟨db.nextProductId, "Tinto Reserva", 12⟩,
         ⟨db.nextProductId + 1, "Branco Seco", 8⟩,
         ⟨db.nextProductId + 2, "Rosé Suave", 5⟩],
      nextProductId := db.nextProductId + 3 }
  else db

/-- A single increment or decrement request against a product id, used to
state properties over arbitrary sequences of the two row mutations. -/
inductive InvOp
  | incr (i : Nat)
  | decr (i : Nat)
deriving Repr, DecidableEq

/-- Apply one increment/decrement request to the database. -/
def applyOp (db : Db) : InvOp → Db
  | InvOp.incr i => (postInventoryIncr db i).2
  | InvOp.decr i => (postInventoryDecr db i).2

/-- Apply a sequence of increment/decrement requests in order. -/
def applyOps (db : Db) (ops : List InvOp) : Db := ops.foldl applyOp db

/-- Every stored quantity is non-negative. -/
def AllNonneg (db : Db) : Prop := ∀ p ∈ db.products, 0 ≤ p.quantity

instance (db : Db) : Decidable (AllNonneg db) :=
  inferInstanceAs (Decidable (∀ p ∈ db.products, 0 ≤ p.quantity))

end Vinheria

namespace Vinheria

/-! ## Helper lemmas -/

/-- Mapping a function that fixes every element of a list is the identity. -/
theorem map_eq_self_of_fix {α : Type} {l : List α} {f : α → α}
    (h : ∀ x ∈ l, f x = x) : l.map f = l := by
  induction l with
  | nil => rfl
  | cons a t ih =>
    simp only [List.map_cons]
    rw [h a (List.mem_cons_self a t),
      ih (fun x hx => h x (List.mem_cons_of_mem a hx))]

/-- Filtering by a predicate that holds on every element is the identity. -/
theorem filter_eq_self_of_all {α : Type} {l : List α} {p : α → Bool}
    (h : ∀ x ∈ l, p x = true) : l.filter p = l := by
  induction l with
  | nil => rfl
  | cons a t ih =>
    rw [List.filter_cons_of_pos (h a (List.mem_cons_self a t)),
      ih (fun x hx => h x (List.mem_cons_of_mem a hx))]

/-- The per-row effect of decr after incr on the same id is the identity
on any row with non-negative quantity (whether or not the id matches). -/
theorem incr_decr_pointwise (i : Nat) (p : Product) (h0 : 0 ≤ p.quantity) :
    (fun r : Product =>
      if r.id == i then { r with quantity := max (r.quantity - 1) 0 } else r)
      ((fun r : Product =>
        if r.id == i then { r with quantity := r.quantity + 1 } else r) p) = p := by
  by_cases hc : p.id = i
  · have hb : (p.id == i) = true := beq_iff_eq.mpr hc
    simp only [hb, if_true]
    have h2 : max (p.quantity + 1 - 1) 0 = p.quantity := by
      have h1 : p.quantity + 1 - 1 = p.quantity := by ring
      rw [h1]
      exact max_eq_left h0
    rw [h2]
  · have hb : (p.id == i) = false := beq_eq_false_iff_ne.mpr hc
    simp [hb]

/-- One increment or decrement preserves non-negativity of all quantities. -/
theorem applyOp_preserves_nonneg (db : Db) (op : InvOp) (h : AllNonneg db) :
    AllNonneg (applyOp db op) := by
  cases op with
  | incr i =>
    intro p hp
    simp only [applyOp, postInventoryIncr, List.mem_map] at hp
    obtain ⟨q, hq, rfl⟩ := hp
    have hq0 := h q hq
    split
    · show 0 ≤ q.quantity + 1
      omega
    · exact hq0
  | decr i =>
    intro p hp
    simp only [applyOp, postInventoryDecr, List.mem_map] at hp
    obtain ⟨q, hq, rfl⟩ := hp
    have hq0 := h q hq
    split
    · show 0 ≤ max (q.quantity - 1) 0
      exact le_max_right _ _
    · exact hq0

/-- Any sequence of increments/decrements preserves non-negativity. -/
theorem applyOps_preserves_nonneg (db : Db) (ops : List InvOp)
    (h : AllNonneg db) : AllNonneg (applyOps db ops) := by
  induction ops generalizing db with
  | nil => exact h
  | cons op t ih => exact ih (applyOp db op) (applyOp_preserves_nonneg db op h)

/-! ## Claim theorems -/

/-- C1: starting from a state where every stored quantity is non-negative,
no sequence of increment/decrement requests can make any stored quantity
negative, and a decrement request hitting a product whose quantity is 0
leaves that product's quantity at 0 (a silent no-op, not an error). -/
theorem c1_quantity_never_negative (db : Db) (ops : List InvOp) (i : Nat)
    (h : AllNonneg db) :
    AllNonneg (applyOps db ops) ∧
    (∀ p ∈ db.products, p.quantity = 0 →
      ∃ q ∈ ((postInventoryDecr db i).2).products,
        q.id = p.id ∧ q.quantity = 0) := by
  refine ⟨applyOps_preserves_nonneg db ops h, ?_⟩
  intro p hp hp0
  refine ⟨(fun r : Product =>
    if r.id == i then { r with quantity := max (r.quantity - 1) 0 } else r) p,
    List.mem_map_of_mem _ hp, ?_⟩
  dsimp only
  split
  · refine ⟨rfl, ?_⟩
    show max (p.quantity - 1) 0 = 0
    rw [hp0]
    decide
  · exact ⟨rfl, hp0⟩

/-- C1 witness: a product at quantity 0 stays at 0 under two decrements. -/
theorem c1_quantity_never_negative_witness :
    AllNonneg (applyOps ⟨[], 1, [⟨1, "x", 0⟩], 2⟩ [InvOp.decr 1, InvOp.decr 1]) ∧
    (∀ p ∈ (⟨[], 1, [⟨1, "x", 0⟩], 2⟩ : Db).products, p.quantity = 0 →
      ∃ q ∈ ((postInventoryDecr ⟨[], 1, [⟨1, "x", 0⟩], 2⟩ 1).2).products,
        q.id = p.id ∧ q.quantity = 0) :=
  c1_quantity_never_negative ⟨[], 1, [⟨1, "x", 0⟩], 2⟩
    [InvOp.decr 1, InvOp.decr 1] 1 (by decide)

/-- C8: on a state with all quantities non-negative, an increment followed
by a decrement of the same id restores the state exactly. -/
theorem c8_incr_then_decr_restores (db : Db) (i : Nat) (h : AllNonneg db) :
    applyOps db [InvOp.incr i, InvOp.decr i] = db := by
  show ({ db with products := _ } : Db) = db
  have hmap :
      ((db.products.map (fun p : Product =>
          if p.id == i then { p with quantity := p.quantity + 1 } else p)).map
        (fun p : Product =>
          if p.id == i then { p with quantity := max (p.quantity - 1) 0 }
          else p)) = db.products := by
    rw [List.map_map]
    exact map_eq_self_of_fix (fun p hp => incr_decr_pointwise i p (h p hp))
  exact congrArg (fun l => { db with products := l }) hmap

/-- C8 witness: increment then decrement of id 2 restores the seeded state. -/
theorem c8_incr_then_decr_restores_witness :
    applyOps (seedIfEmpty Db.empty) [InvOp.incr 2, InvOp.decr 2] =
      seedIfEmpty Db.empty :=
  c8_incr_then_decr_restores (seedIfEmpty Db.empty) 2 (by decide)

/-- C2 counterexample: with the three seeded products present, an
increment and a decrement aimed at the non-existent id 99 do not fail with
any NotFound error — the handlers redirect normally and leave the state
unchanged, contradicting the claim that they fail on an absent id. -/
theorem c2_counterexample :
    postInventoryIncr (seedIfEmpty Db.empty) 99 =
      (InvResult.redirectInventory, seedIfEmpty Db.empty) ∧
    postInventoryDecr (seedIfEmpty Db.empty) 99 =
      (InvResult.redirectInventory, seedIfEmpty Db.empty) := by decide

/-- C2 (amended): on an id carried by no product, increment, decrement and
delete are all silent no-ops: each redirects to the inventory page and
leaves the database unchanged. -/
theorem c2_absent_id_silent_noop (db : Db) (i : Nat)
    (h : ∀ p ∈ db.products, p.id ≠ i) :
    postInventoryIncr db i = (InvResult.redirectInventory, db) ∧
    postInventoryDecr db i = (InvResult.redirectInventory, db) ∧
    postInventoryDelete db i = (InvResult.redirectInventory, db) := by
  have hb : ∀ p ∈ db.products, (p.id == i) = false :=
    fun p hp => beq_eq_false_iff_ne.mpr (h p hp)
  refine ⟨?_, ?_, ?_⟩
  · have hm : db.products.map (fun p : Product =>
        if p.id == i then { p with quantity := p.quantity + 1 } else p) =
        db.products :=
      map_eq_self_of_fix (fun p hp => by simp [hb p hp])
    rw [postInventoryIncr, Prod.mk.injEq]
    exact ⟨rfl, congrArg (fun l => { db with products := l }) hm⟩
  · have hm : db.products.map (fun p : Product =>
        if p.id == i then { p with quantity := max (p.quantity - 1) 0 } else p) =
        db.products :=
      map_eq_self_of_fix (fun p hp => by simp [hb p hp])
    rw [postInventoryDecr, Prod.mk.injEq]
    exact ⟨rfl, congrArg (fun l => { db with products := l }) hm⟩
  · have hm : db.products.filter (fun p : Product => !(p.id == i)) =
        db.products :=
      filter_eq_self_of_all (fun p hp => by simp [hb p hp])
    rw [postInventoryDelete, Prod.mk.injEq]
    exact ⟨rfl, congrArg (fun l => { db with products := l }) hm⟩

/-- C2 witness: the no-op behaviour at id 99 on the seeded state. -/
theorem c2_absent_id_silent_noop_witness :
    postInventoryIncr (seedIfEmpty Db.empty) 99 =
      (InvResult.redirectInventory, seedIfEmpty Db.empty) ∧
    postInventoryDecr (seedIfEmpty Db.empty) 99 =
      (InvResult.redirectInventory, seedIfEmpty Db.empty) ∧
    postInventoryDelete (seedIfEmpty Db.empty) 99 =
      (InvResult.redirectInventory, seedIfEmpty Db.empty) :=
  c2_absent_id_silent_noop (seedIfEmpty Db.empty) 99 (by decide)

/-- C3: when no access token is configured, or the presented token differs
from the configured one, login fails with the invalid-token response, the
users table is never queried, and no session is established. -/
theorem c3_token_fail_closed (hashCheck : String → String → Bool)
    (expectedToken : Option String) (users : List User)
    (email password accessToken : Option String)
    (h : expectedToken = none ∨ accessToken ≠ expectedToken) :
    postLogin hashCheck expectedToken users email password accessToken =
      ⟨LoginResult.invalidAccessToken, false, none⟩ := by
  have ht : tokenRejected expectedToken accessToken = true := by
    cases hE : expectedToken with
    | none => rfl
    | some t =>
      rcases h with h0 | h1
      · rw [h0] at hE; exact absurd hE (by simp)
      · rw [hE] at h1
        have hb : (accessToken == some t) = false := beq_eq_false_iff_ne.mpr h1
        simp [tokenRejected, hb]
  simp [postLogin, ht]

/-- C3 witness: with no `ACCESS_TOKEN` configured, a registered user with
the right password is still rejected before any lookup (fail closed). -/
theorem c3_token_fail_closed_witness :
    postLogin (fun p h => p == h) none [⟨1, "a@x.com", "pw"⟩]
      (some "a@x.com") (some "pw") (some "anything") =
      ⟨LoginResult.invalidAccessToken, false, none⟩ :=
  c3_token_fail_closed (fun p h => p == h) none [⟨1, "a@x.com", "pw"⟩]
    (some "a@x.com") (some "pw") (some "anything") (Or.inl rfl)

/-- C9: starting from an empty products table the seeding inserts exactly
the three named products at quantities 12, 8, 5 with ids 1, 2, 3 in that
creation order; starting from any non-empty table it changes nothing. -/
theorem c9_seeding_guarded (db : Db) (hne : db.products ≠ []) :
    seedIfEmpty Db.empty =
      ⟨[], 1, [⟨1, "Tinto Reserva", 12⟩, ⟨2, "Branco Seco", 8⟩,
        ⟨3, "Rosé Suave", 5⟩], 4⟩ ∧
    seedIfEmpty db = db := by
  refine ⟨rfl, ?_⟩
  rw [seedIfEmpty, if_neg]
  simp [List.isEmpty_iff, hne]

/-- C9 witness: a second run over the already-seeded state changes nothing. -/
theorem c9_seeding_guarded_witness :
    seedIfEmpty Db.empty =
      ⟨[], 1, [⟨1, "Tinto Reserva", 12⟩, ⟨2, "Branco Seco", 8⟩,
        ⟨3, "Rosé Suave", 5⟩], 4⟩ ∧
    seedIfEmpty (seedIfEmpty Db.empty) = seedIfEmpty Db.empty :=
  c9_seeding_guarded (seedIfEmpty Db.empty) (by decide)

/-- C4 counterexample: adding a product with quantity `-5` stores `-5`
itself — the negative value is not clamped to 0, so the stored quantity is
negative right after the add, contradicting the claim. -/
theorem c4_counterexample :
    postInventoryAdd Db.empty (some "Vinho") (some "-5") =
      (AddResult.redirectInventory, ⟨[], 1, [⟨1, "Vinho", -5⟩], 2⟩) ∧
    ∃ p ∈ ((postInventoryAdd Db.empty (some "Vinho") (some "-5")).2).products,
      p.quantity < 0 := by decide

/-- C4 (amended): the quantity defaults to 0 when the field is omitted or
empty; a supplied numeric value is stored exactly as given, including
negative values (no clamping); a supplied non-numeric value makes the add
fail rather than defaulting to 0. -/
theorem c4_add_quantity_unclamped (db : Db) (n s : String) (v : Int)
    (hv : jsNumber s = some v) (hs : s ≠ "") :
    postInventoryAdd db (some n) none =
      (AddResult.redirectInventory,
        { db with
          products := db.products ++ [⟨db.nextProductId, jsTrim n, 0⟩]
          nextProductId := db.nextProductId + 1 }) ∧
    postInventoryAdd db (some n) (some "") =
      (AddResult.redirectInventory,
        { db with
          products := db.products ++ [⟨db.nextProductId, jsTrim n, 0⟩]
          nextProductId := db.nextProductId + 1 }) ∧
    postInventoryAdd db (some n) (some s) =
      (AddResult.redirectInventory,
        { db with
          products := db.products ++ [⟨db.nextProductId, jsTrim n, v⟩]
          nextProductId := db.nextProductId + 1 }) ∧
    (∀ s2 : String, s2 ≠ "" → jsNumber s2 = none →
      postInventoryAdd db (some n) (some s2) = (AddResult.error, db)) := by
  have hbs : (s == "") = false := beq_eq_false_iff_ne.mpr hs
  refine ⟨rfl, ?_, ?_, ?_⟩
  · simp [postInventoryAdd, jsQuantity]
  · simp [postInventoryAdd, jsQuantity, hbs, hv]
  · intro s2 h1 h2
    have hbs2 : (s2 == "") = false := beq_eq_false_iff_ne.mpr h1
    simp [postInventoryAdd, jsQuantity, hbs2, h2]

/-- C4 witness: the amended behaviour at the empty database, name
`Vinho` and quantity string `-5`. -/
theorem c4_add_quantity_unclamped_witness :
    postInventoryAdd Db.empty (some "Vinho") none =
      (AddResult.redirectInventory,
        { Db.empty with
          products := Db.empty.products ++
            [⟨Db.empty.nextProductId, jsTrim "Vinho", 0⟩]
          nextProductId := Db.empty.nextProductId + 1 }) ∧
    postInventoryAdd Db.empty (some "Vinho") (some "") =
      (AddResult.redirectInventory,
        { Db.empty with
          products := Db.empty.products ++
            [⟨Db.empty.nextProductId, jsTrim "Vinho", 0⟩]
          nextProductId := Db.empty.nextProductId + 1 }) ∧
    postInventoryAdd Db.empty (some "Vinho") (some "-5") =
      (AddResult.redirectInventory,
        { Db.empty with
          products := Db.empty.products ++
            [⟨Db.empty.nextProductId, jsTrim "Vinho", -5⟩]
          nextProductId := Db.empty.nextProductId + 1 }) ∧
    (∀ s2 : String, s2 ≠ "" → jsNumber s2 = none →
      postInventoryAdd Db.empty (some "Vinho") (some s2) =
        (AddResult.error, Db.empty)) :=
  c4_add_quantity_unclamped Db.empty "Vinho" "-5" (-5) (by decide) (by decide)

/-- C5 counterexample: adding a product whose name is a single space does
not fail with any InvalidInput error — it succeeds and creates a product
whose name is the empty string, contradicting the claim. -/
theorem c5_counterexample :
    postInventoryAdd Db.empty (some " ") (some "1") =
      (AddResult.redirectInventory, ⟨[], 1, [⟨1, "", 1⟩], 2⟩) := by decide

/-- C5 (amended): an add whose name is empty after trimming is not
rejected: it creates a product whose stored name is the empty string. -/
theorem c5_empty_name_still_created (db : Db) (n : String)
    (hn : jsTrim n = "") :
    postInventoryAdd db (some n) none =
      (AddResult.redirectInventory,
        { db with
          products := db.products ++ [⟨db.nextProductId, "", 0⟩]
          nextProductId := db.nextProductId + 1 }) := by
  simp [postInventoryAdd, jsQuantity, hn]

/-- C5 witness: the amended behaviour for the all-whitespace name. -/
theorem c5_empty_name_still_created_witness :
    postInventoryAdd Db.empty (some " ") none =
      (AddResult.redirectInventory,
        { Db.empty with
          products := Db.empty.products ++ [⟨Db.empty.nextProductId, "", 0⟩]
          nextProductId := Db.empty.nextProductId + 1 }) :=
  c5_empty_name_still_created Db.empty " " (by decide)

/-- C6: with the correct access token, a login with an unknown normalized
email and a login with a known email but mismatched password produce the
same observable outcome — the identical invalid-credentials response, a
lookup performed, and no session established. -/
theorem c6_account_enumeration_safe (hashCheck : String → String → Bool)
    (users : List User) (t e1 p1 e2 p2 : String) (u : User)
    (ht : t ≠ "")
    (h1 : findByEmail users (normalizeEmail e1) = none)
    (h2 : findByEmail users (normalizeEmail e2) = some u)
    (h3 : hashCheck p2 u.password_hash = false) :
    postLogin hashCheck (some t) users (some e1) (some p1) (some t) =
      postLogin hashCheck (some t) users (some e2) (some p2) (some t) ∧
    postLogin hashCheck (some t) users (some e1) (some p1) (some t) =
      ⟨LoginResult.invalidCredentials, true, none⟩ := by
  have hb : (t == "") = false := beq_eq_false_iff_ne.mpr ht
  have htok : tokenRejected (some t) (some t) = false := by
    simp [tokenRejected, hb]
  have hone : postLogin hashCheck (some t) users (some e1) (some p1) (some t) =
      ⟨LoginResult.invalidCredentials, true, none⟩ := by
    simp [postLogin, htok, h1]
  have htwo : postLogin hashCheck (some t) users (some e2) (some p2) (some t) =
      ⟨LoginResult.invalidCredentials, true, none⟩ := by
    simp [postLogin, htok, h2, h3]
  exact ⟨hone.trans htwo.symm, hone⟩

/-- C6 witness: unknown `b@x.com` versus known `a@x.com` with a failing
password comparison give identical outcomes. -/
theorem c6_account_enumeration_safe_witness :
    postLogin (fun _ _ => false) (some "tok") [⟨1, "a@x.com", "H"⟩]
      (some "b@x.com") (some "p") (some "tok") =
      postLogin (fun _ _ => false) (some "tok") [⟨1, "a@x.com", "H"⟩]
        (some "a@x.com") (some "q") (some "tok") ∧
    postLogin (fun _ _ => false) (some "tok") [⟨1, "a@x.com", "H"⟩]
      (some "b@x.com") (some "p") (some "tok") =
      ⟨LoginResult.invalidCredentials, true, none⟩ :=
  c6_account_enumeration_safe (fun _ _ => false) [⟨1, "a@x.com", "H"⟩]
    "tok" "b@x.com" "p" "a@x.com" "q" ⟨1, "a@x.com", "H"⟩
    (by decide) (by decide) (by decide) rfl

/-- C7: two registrations whose emails agree after normalization — the
normalized email being absent beforehand — succeed then fail with the
duplicate-email outcome, leaving exactly one user with that normalized
email in the store. -/
theorem c7_duplicate_normalized_email (hashFn : String → String) (db : Db)
    (e1 p1 e2 p2 : String)
    (hnorm : normalizeEmail e1 = normalizeEmail e2)
    (hfresh : findByEmail db.users (normalizeEmail e1) = none) :
    (postRegister hashFn db (some e1) (some p1)).1 =
      RegisterResult.redirectLogin ∧
    postRegister hashFn (postRegister hashFn db (some e1) (some p1)).2
        (some e2) (some p2) =
      (RegisterResult.duplicateEmail,
        (postRegister hashFn db (some e1) (some p1)).2) ∧
    (((postRegister hashFn db (some e1) (some p1)).2).users.filter
        (fun v => v.email == normalizeEmail e2)).length = 1 := by
  have hstep : postRegister hashFn db (some e1) (some p1) =
      (RegisterResult.redirectLogin,
        { db with
          users := db.users ++ [⟨db.nextUserId, normalizeEmail e1, hashFn p1⟩]
          nextUserId := db.nextUserId + 1 }) := by
    simp [postRegister, hfresh]
  have hnone : ∀ u ∈ db.users, (u.email == normalizeEmail e1) = false := by
    intro u hu
    have hx := List.find?_eq_none.mp hfresh u hu
    simpa using hx
  have hfind2 : findByEmail
      (db.users ++ [⟨db.nextUserId, normalizeEmail e1, hashFn p1⟩])
      (normalizeEmail e2) =
      some ⟨db.nextUserId, normalizeEmail e1, hashFn p1⟩ := by
    rw [← hnorm, findByEmail, List.find?_append]
    rw [findByEmail] at hfresh
    rw [hfresh]
    simp
  have hcount : ((db.users ++
      [(⟨db.nextUserId, normalizeEmail e1, hashFn p1⟩ : User)]).filter
        (fun v : User => v.email == normalizeEmail e2)).length = 1 := by
    rw [List.filter_append]
    have hnil : db.users.filter (fun v : User => v.email == normalizeEmail e2) =
        [] := by
      rw [List.filter_eq_nil_iff]
      intro a ha
      rw [← hnorm]
      simp [hnone a ha]
    rw [hnil]
    simp [← hnorm]
  refine ⟨by rw [hstep], ?_, ?_⟩
  · rw [hstep]
    simp [postRegister, hfind2]
  · rw [hstep]
    exact hcount

/-- C7 witness: registering `" A@X.com"` then `a@x.com` — equal after
trimming and lower-casing — on an empty store. -/
theorem c7_duplicate_normalized_email_witness :
    (postRegister (fun p => p) Db.empty (some " A@X.com") (some "p1")).1 =
      RegisterResult.redirectLogin ∧
    postRegister (fun p => p)
        (postRegister (fun p => p) Db.empty (some " A@X.com") (some "p1")).2
        (some "a@x.com") (some "p2") =
      (RegisterResult.duplicateEmail,
        (postRegister (fun p => p) Db.empty (some " A@X.com") (some "p1")).2) ∧
    (((postRegister (fun p => p) Db.empty
        (some " A@X.com") (some "p1")).2).users.filter
          (fun v => v.email == normalizeEmail "a@x.com")).length = 1 :=
  c7_duplicate_normalized_email (fun p => p) Db.empty
    " A@X.com" "p1" "a@x.com" "p2" (by decide) (by decide)

/-- C10: the login handler is total on requests missing the email or the
password field — the absent email is looked up as the (normalized) empty
string and, the store holding no user with empty email and the empty
password matching no stored hash, the request ends in the generic
invalid-credentials outcome with no session established. -/
theorem c10_absent_fields_generic_failure (hashCheck : String → String → Bool)
    (users : List User) (t : String) (email password : Option String)
    (ht : t ≠ "")
    (habs : email = none ∨ password = none)
    (hemail : findByEmail users "" = none)
    (hpw : ∀ u ∈ users, hashCheck "" u.password_hash = false) :
    postLogin hashCheck (some t) users email password (some t) =
      ⟨LoginResult.invalidCredentials, true, none⟩ := by
  have hb : (t == "") = false := beq_eq_false_iff_ne.mpr ht
  have htok : tokenRejected (some t) (some t) = false := by
    simp [tokenRejected, hb]
  rcases habs with he | hp
  · subst he
    have h0 : findByEmail users (normalizeEmail "") = none := by
      rw [show normalizeEmail "" = "" from by decide]
      exact hemail
    simp [postLogin, htok, h0]
  · subst hp
    cases hfind : findByEmail users (normalizeEmail (email.getD "")) with
    | none => simp [postLogin, htok, hfind]
    | some u =>
      have hmem : u ∈ users := List.mem_of_find?_eq_some hfind
      have hc := hpw u hmem
      simp [postLogin, htok, hfind, hc]

/-- C10 witness: a request with no email field, against a store holding
one ordinary user, fails with the generic invalid-credentials outcome. -/
theorem c10_absent_fields_generic_failure_witness :
    postLogin (fun _ _ => false) (some "tok") [⟨1, "a@x.com", "H"⟩]
      none (some "p") (some "tok") =
      ⟨LoginResult.invalidCredentials, true, none⟩ :=
  c10_absent_fields_generic_failure (fun _ _ => false) [⟨1, "a@x.com", "H"⟩]
    "tok" none (some "p") (by decide) (Or.inl rfl) (by decide) (by decide)

end Vinheria
